import Mathlib

/-!
Verification of the asynchronous resource pool and promise helpers of the
sabl async library (pool.ts, promise.ts, limit.ts).

The TypeScript code is shallowly embedded: the pool's private mutable fields
become a `PState` record, timestamps (JS `Date` values) become `Int`
milliseconds passed explicitly as `now`, and the observable effects of one
synchronous region of the JS event loop (promise resolutions and rejections,
factory destroy launches, emitted error events) are collected in a list of
`Ev` values.  Items are identified by `Nat` keys, mirroring the fact that the
pool distinguishes items (and their decorated pool elements) by object
identity.  Each definition is a direct transcription of the corresponding
function of the source; comments note the source symbol.
-/

/-- The element record attached to a pool item (source: PoolElement):
creation timestamp and the optional idle timestamp. -/
structure ElemData where
  created : Int
  idled : Option Int
deriving Repr, DecidableEq

/-- Factory event kinds (source: FactoryEvent). -/
inductive FAction
  | create
  | destroy
  | reset
deriving Repr, DecidableEq

/-- The four validated numeric option fields. -/
inductive OptField
  | fMaxLifetime
  | fMaxIdleTime
  | fMaxOpenCount
  | fMaxIdleCount
deriving Repr, DecidableEq

/-- Errors surfaced by the pool (source: Pool.#err and the PoolError
messages thrown by the option-change handlers). -/
inductive PErr
  | closingE
  | closedE
  | canceledE
  | optZero (f : OptField)
deriving Repr, DecidableEq

/-- Observable effects of one synchronous region of pool code:
emitted error events, request resolutions and rejections, launches of
factory.destroy, launches of factory.create, the trampolined re-entry of
grow via setTimeout, invocation of the close callback on an active item,
and resolution of the waitClose promise. -/
inductive Ev
  | errEvent (a : FAction)
  | resolvedW (wid item : Nat)
  | rejectedW (wid : Nat) (e : PErr)
  | destroyBegin (item : Nat)
  | createBegin
  | growScheduled
  | fnInvoked (item : Nat)
  | waitCloseResolved
deriving Repr, DecidableEq

/-- The pool state: every private field of class Pool together with the
four numeric fields and the parallelCreate flag of EmittingPoolOptions.
refs is the item-to-element back-reference installed by setElement;
active and pool hold item keys (object identity); queue holds waiting
request ids in FIFO order (head = oldest); pool is the idle stack with the
LIFO top at the back of the list, matching JS push/pop at the array end. -/
structure PState where
  refs : List (Nat × ElemData)
  active : List Nat
  pool : List Nat
  queue : List Nat
  maxLifetime : Int
  maxIdleTime : Int
  maxOpenCount : Int
  maxIdleCount : Int
  parallelCreate : Bool
  waitDuration : Nat
  maxIdleClosed : Nat
  maxIdleTimeClosed : Nat
  maxLifetimeClosed : Nat
  growing : Bool
  closing : Bool
  closed : Bool
  hasWaitClose : Bool
  sweepDeadline : Option Int
  destroying : Nat
  creating : Nat
  createFailures : Nat
deriving Repr, DecidableEq

/-- Source: MAX_CREATE_FAILURES = 10. -/
def MAX_CREATE_FAILURES : Nat := 10

/-- Milliseconds elapsed since a timestamp (source: sinceMs). -/
def sinceMs (time now : Int) : Int := now - time

/-- Look up the element decorated onto an item (source: getElement). -/
def lookupRef (refs : List (Nat × ElemData)) (item : Nat) : Option ElemData :=
  (refs.find? (fun p => p.1 == item)).map (fun p => p.2)

/-- Install or replace the element decorated onto an item
(source: setElement). -/
def upsertRef (refs : List (Nat × ElemData)) (item : Nat) (e : ElemData) :
    List (Nat × ElemData) :=
  (item, e) :: refs.filter (fun p => ¬ p.1 == item)

/-- Update the idled timestamp of the element decorated onto an item
(source: assignments to el.idled). -/
def setIdled (refs : List (Nat × ElemData)) (item : Nat) (v : Option Int) :
    List (Nat × ElemData) :=
  refs.map (fun p => if p.1 == item then (p.1, { p.2 with idled := v }) else p)

namespace Pool

/-- Source: Pool.#destroy, synchronous prefix: increments destroying and
launches factory.destroy in the background. -/
def destroyStart (s : PState) (item : Nat) : PState × List Ev :=
  ({ s with destroying := s.destroying + 1 }, [Ev.destroyBegin item])

/-- Source: Pool.#flush.  When closing and nothing is in flight and no item
is active, mark the pool closed and resolve waitClose if present. -/
def flush (s : PState) : PState × List Ev :=
  if s.closing = false then (s, [])
  else if s.destroying > 0 then (s, [])
  else if s.creating > 0 then (s, [])
  else if s.active.length > 0 then (s, [])
  else
    let s1 := { s with closed := true }
    if s1.hasWaitClose then
      ({ s1 with hasWaitClose := false }, [Ev.waitCloseResolved])
    else (s1, [])

/-- Source: Pool.#destroy, completion: the factory.destroy promise settles
(failed = true models a rejection, which is emitted and swallowed),
destroying is decremented, and flush runs when it reaches zero. -/
def destroyComplete (s : PState) (failed : Bool) : PState × List Ev :=
  let evs := if failed then [Ev.errEvent FAction.destroy] else []
  let s1 := { s with destroying := s.destroying - 1 }
  if s1.destroying = 0 then
    let (s2, evs2) := flush s1
    (s2, evs ++ evs2)
  else (s1, evs)

/-- Source: Pool.#isExpired.  Checks lifetime then idle time against the
caps, incrementing the matching counter when it reports true. -/
def isExpired (s : PState) (e : ElemData) (now : Int) : Bool × PState :=
  if s.maxLifetime > 0 ∧ sinceMs e.created now > s.maxLifetime then
    (true, { s with maxLifetimeClosed := s.maxLifetimeClosed + 1 })
  else
    match e.idled with
    | some idt =>
      if s.maxIdleTime > 0 ∧ sinceMs idt now > s.maxIdleTime then
        (true, { s with maxIdleTimeClosed := s.maxIdleTimeClosed + 1 })
      else (false, s)
    | none => (false, s)

/-- Source: Pool.#ttl.  Remaining life of an element, null when neither
remaining budget is non-negative. -/
def ttl (s : PState) (e : ElemData) (now : Int) : Option Int :=
  let remLifetime : Int :=
    if s.maxLifetime > 0 then s.maxLifetime - sinceMs e.created now else -1
  let remIdletime : Int :=
    match e.idled with
    | some idt =>
      if s.maxIdleTime > 0 then s.maxIdleTime - sinceMs idt now else -1
    | none => -1
  if remLifetime < 0 ∧ remIdletime < 0 then none
  else if remLifetime < 0 then some remIdletime
  else if remIdletime < 0 then some remLifetime
  else some (min remLifetime remIdletime)

/-- Source: Pool.#pushSweep.  Keep an already-sooner deadline, otherwise
replace the timer with one at now + ttl. -/
def pushSweep (s : PState) (ttlMs now : Int) : PState :=
  let deadline := now + ttlMs
  match s.sweepDeadline with
  | some d => if d < deadline then s else { s with sweepDeadline := some deadline }
  | none => { s with sweepDeadline := some deadline }

/-- Source: Pool.#clearSweep. -/
def clearSweep (s : PState) : PState := { s with sweepDeadline := none }

/-- Source: Pool.#available.  Destroy when closing, expired, or over
maxOpenCount (even with waiters queued); else hand to the oldest waiter;
else pool the element (subject to maxIdleCount) and schedule a sweep. -/
def available (s : PState) (item : Nat) (e : ElemData) (now : Int) :
    PState × List Ev :=
  let tot : Int := (s.active.length : Int) + s.pool.length
  if s.closing then destroyStart s item
  else
    match isExpired s e now with
    | (true, s1) => destroyStart s1 item
    | (false, s1) =>
      if s1.maxOpenCount > 0 ∧ tot ≥ s1.maxOpenCount then
        destroyStart { s1 with maxIdleClosed := s1.maxIdleClosed + 1 } item
      else
        match s1.queue with
        | req :: rest =>
          ({ s1 with queue := rest, active := s1.active ++ [item] },
            [Ev.resolvedW req item])
        | [] =>
          if s1.maxIdleCount > 0 ∧ (s1.pool.length : Int) ≥ s1.maxIdleCount then
            destroyStart { s1 with maxIdleClosed := s1.maxIdleClosed + 1 } item
          else
            let e2 := { e with idled := some now }
            let s2 := { s1 with refs := setIdled s1.refs item (some now),
                                pool := s1.pool ++ [item] }
            match ttl s2 e2 now with
            | some t => (pushSweep s2 t now, [])
            | none => (s2, [])

/-- Source: Pool.#grow, the synchronous prefix for parallelCreate = true
with a factory whose create() call suspends: each #create invocation in the
loop increments creating and launches factory.create; the trailing
reschedule test and flush also run before control returns. -/
def growStart (s : PState) : PState × List Ev :=
  if s.growing then (s, [])
  else
    let s1 := { s with growing := true }
    if s1.maxOpenCount > 0 ∧ (s1.active.length : Int) ≥ s1.maxOpenCount then
      ({ s1 with growing := false }, [])
    else
      let needed : Int :=
        let n : Int := s1.queue.length
        let n := if s1.maxOpenCount > 0 then
          min n (s1.maxOpenCount - (s1.active.length : Int)) else n
        n - (s1.creating : Int)
      let k := needed.toNat
      let s2 := { s1 with creating := s1.creating + k, growing := false }
      let evs := List.replicate k Ev.createBegin
      let evs2 :=
        if s2.closed = false ∧ s2.closing = false ∧ s2.queue ≠ [] ∧ s2.creating = 0
        then [Ev.growScheduled] else []
      let r := flush s2
      (r.1, evs ++ evs2 ++ r.2)

/-- Outcome of a call to Pool.get: a synchronous throw from #checkStatus,
an immediately rejected promise, an immediately resolved promise carrying
an item, or a queued request. -/
inductive GetOutcome
  | threw (e : PErr)
  | rejected (e : PErr)
  | resolvedNow (item : Nat)
  | queued
deriving Repr, DecidableEq

/-- Source: Pool.get.  ctxCanceled models ctx?.canceler: none when absent,
some b when present with canceled = b.  When the idle stack is non-empty the
top element is popped, its idled timestamp cleared, and its item returned:
the expiry check at this point is commented out in the source, and the
popped element is not pushed onto the active list.  Otherwise the request
wid is enqueued and grow is triggered. -/
def get (s : PState) (ctxCanceled : Option Bool) (wid : Nat) :
    GetOutcome × PState × List Ev :=
  if s.closed then (GetOutcome.threw PErr.closedE, s, [])
  else if s.closing then (GetOutcome.threw PErr.closingE, s, [])
  else if ctxCanceled = some true then (GetOutcome.rejected PErr.canceledE, s, [])
  else
    match s.pool.getLast? with
    | some top =>
      let s1 := { s with pool := s.pool.dropLast, refs := setIdled s.refs top none }
      (GetOutcome.resolvedNow top, s1, [])
    | none =>
      let s1 := { s with queue := s.queue ++ [wid] }
      let (s2, evs) := growStart s1
      (GetOutcome.queued, s2, evs)

/-- Behaviour of the optional factory.reset hook at a release call. -/
inductive ResetBehavior
  | absent
  | succeeds
  | throws
deriving Repr, DecidableEq

/-- Source: Pool.release.  Resolve the element from the item's
back-reference; destroy unrecognized or non-active items; run reset when
provided, destroying the item when it throws; otherwise offer the element
via #available. -/
def release (s : PState) (item : Nat) (rb : ResetBehavior) (now : Int) :
    PState × List Ev :=
  match lookupRef s.refs item with
  | none => destroyStart s item
  | some e =>
    if s.active.contains item then
      let s1 := { s with active := s.active.erase item }
      match rb with
      | ResetBehavior.absent => available s1 item e now
      | ResetBehavior.succeeds => available s1 item e now
      | ResetBehavior.throws =>
        let (s2, evs) := destroyStart s1 item
        (s2, Ev.errEvent FAction.reset :: evs)
    else destroyStart s item

/-- Source: Pool.#processClose.  Reject all queued requests (popping from
the back), destroy all idle elements (popping from the back), pop every
active element while invoking fn on it when fn is provided, then flush. -/
def processClose (s : PState) (withFn : Bool) : PState × List Ev :=
  let rejEvs := (s.queue.reverse).map (fun w => Ev.rejectedW w PErr.closingE)
  let s1 := { s with queue := [] }
  let poolItems := s1.pool.reverse
  let destroyEvs := poolItems.map Ev.destroyBegin
  let s2 := { s1 with pool := [], destroying := s1.destroying + poolItems.length }
  let (s3, fnEvs) :=
    if s2.active ≠ [] ∧ withFn then
      ({ s2 with active := [] }, (s2.active.reverse).map Ev.fnInvoked)
    else (s2, [])
  let (s4, fevs) := flush s3
  (s4, rejEvs ++ destroyEvs ++ fnEvs ++ fevs)

/-- What Pool.close returns: an already-resolved promise, the existing
waitClose promise, or a fresh waitClose promise. -/
inductive CloseRet
  | alreadyResolved
  | existingWait
  | newWait
deriving Repr, DecidableEq

/-- Source: Pool.close.  Idempotent entry to the closing state: set
closing, create waitClose, clear the sweep timer, and run processClose. -/
def close (s : PState) (withFn : Bool) : CloseRet × PState × List Ev :=
  if s.closed then (CloseRet.alreadyResolved, s, [])
  else if s.closing then (CloseRet.existingWait, s, [])
  else
    let s1 := clearSweep { s with closing := true, hasWaitClose := true }
    let (s2, evs) := processClose s1 withFn
    (CloseRet.newWait, s2, evs)

/-- Source: Pool.#create, the failure path with a factory whose create()
throws synchronously (as in the ten-strike test): creating is incremented,
the error is emitted, createFailures is incremented, close() is initiated at
MAX_CREATE_FAILURES, and the finally clause decrements creating afterwards. -/
def createFailSync (s : PState) : PState × List Ev :=
  let s1 := { s with creating := s.creating + 1 }
  let evs := [Ev.errEvent FAction.create]
  let s2 := { s1 with createFailures := s1.createFailures + 1 }
  let (s3, evs2) :=
    if s2.createFailures ≥ MAX_CREATE_FAILURES then
      let r := close s2 false
      (r.2.1, r.2.2)
    else (s2, [])
  let s4 := { s3 with creating := s3.creating - 1 }
  (s4, evs ++ evs2)

/-- Source: Pool.#create success path joined with Pool.#created: reset
createFailures, decrement creating (the finally clause), then destroy the
item if the pool is closing or closed, else decorate it with a fresh
element and offer it via #available. -/
def createSuccess (s : PState) (item : Nat) (now : Int) : PState × List Ev :=
  let s1 := { s with createFailures := 0 }
  let s2 := { s1 with creating := s1.creating - 1 }
  if s2.closed ∨ s2.closing then destroyStart s2 item
  else
    let e : ElemData := { created := now, idled := none }
    let s3 := { s2 with refs := upsertRef s2.refs item e }
    available s3 item e now

/-- Iterate the grow loop body with a synchronously failing factory. -/
def iterFail : Nat → PState → PState × List Ev
  | 0, s => (s, [])
  | k + 1, s =>
    let (s1, e1) := createFailSync s
    let (s2, e2) := iterFail k s1
    (s2, e1 ++ e2)

/-- Source: Pool.#grow with a synchronously failing factory and
parallelCreate = true: every iteration of the creation loop runs
createFailSync to completion before the loop continues. -/
def growFail (s : PState) : PState × List Ev :=
  if s.growing then (s, [])
  else
    let s1 := { s with growing := true }
    if s1.maxOpenCount > 0 ∧ (s1.active.length : Int) ≥ s1.maxOpenCount then
      ({ s1 with growing := false }, [])
    else
      let needed : Int :=
        let n : Int := s1.queue.length
        let n := if s1.maxOpenCount > 0 then
          min n (s1.maxOpenCount - (s1.active.length : Int)) else n
        n - (s1.creating : Int)
      let r := iterFail needed.toNat s1
      let s3 := { r.1 with growing := false }
      let evs2 :=
        if s3.closed = false ∧ s3.closing = false ∧ s3.queue ≠ [] ∧ s3.creating = 0
        then [Ev.growScheduled] else []
      let r2 := flush s3
      (r2.1, r.2 ++ evs2 ++ r2.2)

/-- One setTimeout round of the grow trampoline with a synchronously
failing factory, iterated. -/
def strikeRounds : Nat → PState → PState × List Ev
  | 0, s => (s, [])
  | k + 1, s =>
    let (s1, e1) := growFail s
    let (s2, e2) := strikeRounds k s1
    (s2, e1 ++ e2)

/-- The statistics snapshot (source: Pool.stats and PoolStats). -/
structure Stats where
  maxOpenCount : Int
  maxLifetime : Int
  maxIdleTime : Int
  maxIdleCount : Int
  count : Nat
  inUseCount : Nat
  idleCount : Nat
  waitCount : Nat
  waitDuration : Nat
  maxIdleClosed : Nat
  maxIdleTimeClosed : Nat
  maxLifetimeClosed : Nat
deriving Repr, DecidableEq

/-- Source: Pool.stats. -/
def stats (s : PState) : Stats :=
  { maxOpenCount := s.maxOpenCount
    maxLifetime := s.maxLifetime
    maxIdleTime := s.maxIdleTime
    maxIdleCount := s.maxIdleCount
    count := s.pool.length + s.active.length
    inUseCount := s.active.length
    idleCount := s.pool.length
    waitCount := s.queue.length
    waitDuration := s.waitDuration
    maxIdleClosed := s.maxIdleClosed
    maxIdleTimeClosed := s.maxIdleTimeClosed
    maxLifetimeClosed := s.maxLifetimeClosed }

/-- Source: Pool.#onMaxLifetime, the change handler registered on the
options bundle.  Runs synchronously inside the property setter; a thrown
PoolError is returned as the third component, with the state at the moment
of the throw. -/
def onMaxLifetime (s : PState) (v now : Int) : PState × List Ev × Option PErr :=
  if v = 0 then (s, [], some (PErr.optZero OptField.fMaxLifetime))
  else if v ≤ 0 then
    (if s.maxIdleTime < 0 then clearSweep s else s, [], none)
  else if s.pool.length = 0 then (s, [], none)
  else (pushSweep s 0 now, [], none)

/-- Source: Pool.#onMaxIdleTime, symmetric to onMaxLifetime. -/
def onMaxIdleTime (s : PState) (v now : Int) : PState × List Ev × Option PErr :=
  if v = 0 then (s, [], some (PErr.optZero OptField.fMaxIdleTime))
  else if v ≤ 0 then
    (if s.maxLifetime < 0 then clearSweep s else s, [], none)
  else if s.pool.length = 0 then (s, [], none)
  else (pushSweep s 0 now, [], none)

/-- The while loop of Pool.#onMaxOpenCount: retire the oldest idle
elements while the open count exceeds the new cap.  The fuel argument is
the initial pool length, which bounds the number of iterations. -/
def trimOpen : Nat → PState → Int → PState × List Ev
  | 0, s, _ => (s, [])
  | fuel + 1, s, v =>
    match s.pool with
    | [] => (s, [])
    | old :: rest =>
      if (s.active.length : Int) + s.pool.length > v then
        let s1 := { s with pool := rest, maxIdleClosed := s.maxIdleClosed + 1,
                           destroying := s.destroying + 1 }
        let r := trimOpen fuel s1 v
        (r.1, Ev.destroyBegin old :: r.2)
      else (s, [])

/-- Source: Pool.#onMaxOpenCount: throw on 0, re-run grow when requests
wait, then trim the idle stack from the oldest end when the new positive
cap is exceeded. -/
def onMaxOpenCount (s : PState) (v : Int) (_now : Int) : PState × List Ev × Option PErr :=
  if v = 0 then (s, [], some (PErr.optZero OptField.fMaxOpenCount))
  else
    let r := if s.queue.length > 0 then growStart s else (s, [])
    let s1 := r.1
    if v ≤ 0 then (s1, r.2, none)
    else if s1.pool.length = 0 then (s1, r.2, none)
    else if (s1.pool.length : Int) + (s1.active.length : Int) ≤ v then (s1, r.2, none)
    else
      let t := trimOpen s1.pool.length s1 v
      (t.1, r.2 ++ t.2, none)

/-- The while loop of Pool.#onMaxIdleCount: retire the oldest idle
elements while the idle count exceeds the new cap. -/
def trimIdle : Nat → PState → Int → PState × List Ev
  | 0, s, _ => (s, [])
  | fuel + 1, s, v =>
    match s.pool with
    | [] => (s, [])
    | old :: rest =>
      if (s.pool.length : Int) > v then
        let s1 := { s with pool := rest, maxIdleClosed := s.maxIdleClosed + 1,
                           destroying := s.destroying + 1 }
        let r := trimIdle fuel s1 v
        (r.1, Ev.destroyBegin old :: r.2)
      else (s, [])

/-- Source: Pool.#onMaxIdleCount: 0 is allowed; non-positive means
unlimited; otherwise trim the idle stack from the oldest end. -/
def onMaxIdleCount (s : PState) (v : Int) : PState × List Ev × Option PErr :=
  if v ≤ 0 then (s, [], none)
  else if (s.pool.length : Int) ≤ v then (s, [], none)
  else
    let t := trimIdle s.pool.length s v
    (t.1, t.2, none)

/-- Source: the maxLifetime property setter of EmittingPoolOptions: a
same-value assignment returns before emitting; otherwise the backing field
is updated first and the change event (the Pool handler) runs second, so a
handler throw leaves the new value stored. -/
def setMaxLifetime (s : PState) (v now : Int) : PState × List Ev × Option PErr :=
  if v = s.maxLifetime then (s, [], none)
  else onMaxLifetime { s with maxLifetime := v } v now

/-- Source: the maxIdleTime property setter of EmittingPoolOptions. -/
def setMaxIdleTime (s : PState) (v now : Int) : PState × List Ev × Option PErr :=
  if v = s.maxIdleTime then (s, [], none)
  else onMaxIdleTime { s with maxIdleTime := v } v now

/-- Source: the maxOpenCount property setter of EmittingPoolOptions. -/
def setMaxOpenCount (s : PState) (v now : Int) : PState × List Ev × Option PErr :=
  if v = s.maxOpenCount then (s, [], none)
  else onMaxOpenCount { s with maxOpenCount := v } v now

/-- Source: the maxIdleCount property setter of EmittingPoolOptions. -/
def setMaxIdleCount (s : PState) (v : Int) : PState × List Ev × Option PErr :=
  if v = s.maxIdleCount then (s, [], none)
  else onMaxIdleCount { s with maxIdleCount := v } v

/-- A PoolOptions argument to setOptions: fields absent from the source
object are none. -/
structure OptPatch where
  maxLifetime : Option Int := none
  maxIdleTime : Option Int := none
  maxOpenCount : Option Int := none
  maxIdleCount : Option Int := none
  parallelCreate : Option Bool := none
deriving Repr, DecidableEq

/-- Sequencing of property assignments inside Object.assign: a later
assignment only runs when no earlier setter threw. -/
def applyStep (st : PState × List Ev × Option PErr)
    (f : PState → PState × List Ev × Option PErr) :
    PState × List Ev × Option PErr :=
  match st with
  | (s, evs, none) =>
    let r := f s
    (r.1, evs ++ r.2.1, r.2.2)
  | st => st

/-- Source: Pool.setOptions: #checkStatus throws when the pool is closed or
closing, then Object.assign copies each present field of the argument onto
the emitting options bundle through its setter.  Assignment order is the
key order of the argument object; this embedding fixes the declaration
order maxLifetime, maxIdleTime, maxOpenCount, maxIdleCount, parallelCreate.
The parallelCreate assignment hits a plain data property: no event, no
validation. -/
def setOptions (s : PState) (p : OptPatch) (now : Int) :
    PState × List Ev × Option PErr :=
  if s.closed then (s, [], some PErr.closedE)
  else if s.closing then (s, [], some PErr.closingE)
  else
    let st : PState × List Ev × Option PErr := (s, [], none)
    let st := match p.maxLifetime with
      | some v => applyStep st (fun s => setMaxLifetime s v now)
      | none => st
    let st := match p.maxIdleTime with
      | some v => applyStep st (fun s => setMaxIdleTime s v now)
      | none => st
    let st := match p.maxOpenCount with
      | some v => applyStep st (fun s => setMaxOpenCount s v now)
      | none => st
    let st := match p.maxIdleCount with
      | some v => applyStep st (fun s => setMaxIdleCount s v)
      | none => st
    match p.parallelCreate with
    | some b =>
      match st with
      | (s2, evs, none) => ({ s2 with parallelCreate := b }, evs, none)
      | st => st
    | none => st

end Pool

/-! Embedding of promise.ts and limit.ts. -/

/-- A JS error value: an identity for payload comparison, its message, and
whether the SymErrCanceled tag property is present on it. -/
structure JsErr where
  errId : Nat
  msg : String
  canceledTag : Bool
deriving Repr, DecidableEq

/-- Source: isCanceled.  A nullish reason is not a cancellation; otherwise
the SymErrCanceled tag decides. -/
def isCanceled : Option JsErr → Bool
  | none => false
  | some e => e.canceledTag

/-- Source: cancelErr.  Use the errCanceled factory result when the factory
is supplied and returns a non-nullish value, else a fresh generic Error with
the given message; in both cases set the SymErrCanceled tag. -/
def cancelErr (msg : String) (errCanceled : Option (Unit → Option JsErr)) : JsErr :=
  let e0 : Option JsErr :=
    match errCanceled with
    | some f => f ()
    | none => none
  let e1 :=
    match e0 with
    | some e => e
    | none => { errId := 0, msg := msg, canceledTag := false }
  { e1 with canceledTag := true }

/-- A cancellation token (source: the Canceler of the context package):
whether it has fired, and the error stored on it. -/
structure CancelerM where
  canceled : Bool
  storedErr : Option JsErr
deriving Repr, DecidableEq

/-- A context as seen by promise and limit: possibly carrying a canceler. -/
structure CtxM where
  canceler : Option CancelerM
deriving Repr, DecidableEq

/-- The immediate result of the promise(ctx?, errCanceled?) constructor: a
pending callback promise (subscribed records whether a cancellation
subscription was installed), or a promise already rejected with the given
reason. -/
inductive PromiseInit
  | pending (subscribed : Bool)
  | rejectedNow (reason : JsErr)
deriving Repr, DecidableEq

/-- Source: the promise function.  Without a context or canceler the bare
callback promise is returned; with an already-cancelled canceler the
promise is rejected immediately with cancelErr of the already-canceled
message; otherwise an onCancel subscription is installed. -/
def promiseInit (ctx : Option CtxM) (errCanceled : Option (Unit → Option JsErr)) :
    PromiseInit :=
  match ctx with
  | none => PromiseInit.pending false
  | some c =>
    match c.canceler with
    | none => PromiseInit.pending false
    | some clr =>
      if clr.canceled then
        PromiseInit.rejectedNow (cancelErr "Context was already canceled" errCanceled)
      else PromiseInit.pending true

/-- The settlement of a promise: its eventual value or rejection reason.
Values are modelled as Nat. -/
inductive OutcomeM
  | value (v : Nat)
  | errv (e : JsErr)
deriving Repr, DecidableEq

/-- The second argument of limit: a millisecond duration, an absolute
deadline, or a context. -/
inductive LimiterM
  | ms (n : Int)
  | deadline (d : Int)
  | inCtx (c : Option CtxM)
deriving Repr, DecidableEq

/-- What limit returns: the input promise itself with no bound installed
(passthrough), an immediately rejected promise carrying the timeout error,
or a race of the input against an installed bound. -/
inductive LimitRes
  | passthrough (p : OutcomeM)
  | rejectTimeout
  | raced (p : OutcomeM)
deriving Repr, DecidableEq

/-- Source: limitContext.  A nullish context or canceler returns the input
promise unchanged; an already-cancelled canceler rejects immediately;
otherwise a cancel subscription races the input promise. -/
def limitContext (p : OutcomeM) (ctx : Option CtxM) : LimitRes :=
  match ctx with
  | none => LimitRes.passthrough p
  | some c =>
    match c.canceler with
    | none => LimitRes.passthrough p
    | some clr =>
      if clr.canceled then LimitRes.rejectTimeout
      else LimitRes.raced p

/-- Source: limit.  A number is a duration; a Date is converted to the
remaining duration; non-positive durations reject immediately; anything
else is treated as a context. -/
def limit (p : OutcomeM) (l : LimiterM) (now : Int) : LimitRes :=
  match l with
  | LimiterM.ms n => if n ≤ 0 then LimitRes.rejectTimeout else LimitRes.raced p
  | LimiterM.deadline d =>
    let n := d - now
    if n ≤ 0 then LimitRes.rejectTimeout else LimitRes.raced p
  | LimiterM.inCtx c => limitContext p c

/-! Specification-side definitions used to state the amended reading of the
ttl claim: the list of remaining budgets whose caps are switched on, and
the smallest non-negative entry of a list. -/

/-- The remaining budgets that participate per the claim: the lifetime
budget when maxLifetime is positive, and the idle budget when maxIdleTime
is positive and the element has an idled timestamp. -/
def ttlSpecBudgets (s : PState) (e : ElemData) (now : Int) : List Int :=
  (if s.maxLifetime > 0 then [s.maxLifetime - (now - e.created)] else []) ++
  (match e.idled with
   | some idt => if s.maxIdleTime > 0 then [s.maxIdleTime - (now - idt)] else []
   | none => [])

/-- The smallest non-negative entry of a list, or none when there is no
non-negative entry. -/
def minNonneg (l : List Int) : Option Int :=
  (l.filter (fun x => decide (0 ≤ x))).foldr
    (fun x acc =>
      match acc with
      | none => some x
      | some y => some (min x y))
    none

/-! Concrete scenario states used by the theorems. -/

/-- A freshly constructed pool with default options (all caps unlimited,
parallelCreate true). -/
def pool0 : PState :=
  { refs := [], active := [], pool := [], queue := []
    maxLifetime := -1, maxIdleTime := -1, maxOpenCount := -1, maxIdleCount := -1
    parallelCreate := true
    waitDuration := 0, maxIdleClosed := 0, maxIdleTimeClosed := 0
    maxLifetimeClosed := 0
    growing := false, closing := false, closed := false, hasWaitClose := false
    sweepDeadline := none, destroying := 0, creating := 0, createFailures := 0 }

/-- After get on the empty pool at request id 1: the request is queued and
grow has launched one factory create. -/
def sAfterGet1 : PState := (Pool.get pool0 none 1).2.1

/-- After the factory create resolves with item 7 at time 1: the item is
handed to waiter 1 and is active. -/
def sAfterCreate : PState := (Pool.createSuccess sAfterGet1 7 1).1

/-- After release of item 7 at time 2: the element idles in the pool. -/
def sAfterRelease : PState :=
  (Pool.release sAfterCreate 7 Pool.ResetBehavior.absent 2).1

/-- A pool holding one idle element that is already past its maxLifetime
cap by the time of the next get. -/
def sIdleExpired : PState :=
  { pool0 with maxLifetime := 10, refs := [(5, { created := 0, idled := some 1 })],
               pool := [5] }

/-- A pool with one queued waiter, as left by a get against an
always-failing factory. -/
def sWait : PState := { pool0 with queue := [1] }

/-- A pool that has been fully closed. -/
def sClosedPool : PState := (Pool.close pool0 false).2.1

/-- A pool that is closing with nothing in flight and an unresolved
waitClose promise. -/
def sFlushReady : PState := { pool0 with closing := true, hasWaitClose := true }

/-- The exclusive-membership invariant of the specification: an item is in
exactly one of the idle stack and the active set. -/
def inExactlyOne (s : PState) (i : Nat) : Prop :=
  (i ∈ s.pool ∧ i ∉ s.active) ∨ (i ∈ s.active ∧ i ∉ s.pool)

instance (s : PState) (i : Nat) : Decidable (inExactlyOne s i) := by
  unfold inExactlyOne
  infer_instance

/-! Helper lemmas: frame facts about fields that the pool operations never
touch (waitDuration, createFailures) and about fields that only move one
way (closing), plus the characterization of minNonneg. -/

theorem wd_destroyStart (s : PState) (i : Nat) :
    ((Pool.destroyStart s i).1).waitDuration = s.waitDuration := rfl

theorem wd_flush (s : PState) : ((Pool.flush s).1).waitDuration = s.waitDuration := by
  simp only [Pool.flush]
  split_ifs <;> rfl

theorem wd_isExpired (s : PState) (e : ElemData) (now : Int) :
    ((Pool.isExpired s e now).2).waitDuration = s.waitDuration := by
  simp only [Pool.isExpired]
  repeat' split
  all_goals rfl

theorem wd_pushSweep (s : PState) (t now : Int) :
    (Pool.pushSweep s t now).waitDuration = s.waitDuration := by
  simp only [Pool.pushSweep]
  repeat' split
  all_goals rfl

theorem wd_available (s : PState) (item : Nat) (e : ElemData) (now : Int) :
    ((Pool.available s item e now).1).waitDuration = s.waitDuration := by
  have hw := wd_isExpired s e now
  simp only [Pool.available]
  repeat' split
  all_goals simp_all [Pool.destroyStart, wd_pushSweep]

theorem wd_growStart (s : PState) :
    ((Pool.growStart s).1).waitDuration = s.waitDuration := by
  simp only [Pool.growStart]
  repeat' split
  all_goals simp_all [wd_flush]

theorem wd_get (s : PState) (c : Option Bool) (w : Nat) :
    ((Pool.get s c w).2.1).waitDuration = s.waitDuration := by
  simp only [Pool.get]
  repeat' split
  all_goals simp_all [wd_growStart]

theorem wd_release (s : PState) (item : Nat) (rb : Pool.ResetBehavior) (now : Int) :
    ((Pool.release s item rb now).1).waitDuration = s.waitDuration := by
  simp only [Pool.release]
  repeat' split
  all_goals simp_all [wd_available, Pool.destroyStart]

theorem wd_createSuccess (s : PState) (item : Nat) (now : Int) :
    ((Pool.createSuccess s item now).1).waitDuration = s.waitDuration := by
  simp only [Pool.createSuccess]
  repeat' split
  all_goals simp_all [wd_available, Pool.destroyStart]

theorem wd_processClose (s : PState) (w : Bool) :
    ((Pool.processClose s w).1).waitDuration = s.waitDuration := by
  simp only [Pool.processClose]
  repeat' split
  all_goals simp_all [wd_flush]

theorem wd_close (s : PState) (w : Bool) :
    ((Pool.close s w).2.1).waitDuration = s.waitDuration := by
  simp only [Pool.close]
  repeat' split
  all_goals simp_all [wd_processClose, Pool.clearSweep]

theorem wd_createFailSync (s : PState) :
    ((Pool.createFailSync s).1).waitDuration = s.waitDuration := by
  simp only [Pool.createFailSync]
  repeat' split
  all_goals simp_all [wd_close]

theorem wd_destroyComplete (s : PState) (b : Bool) :
    ((Pool.destroyComplete s b).1).waitDuration = s.waitDuration := by
  simp only [Pool.destroyComplete]
  repeat' split
  all_goals simp_all [wd_flush]

theorem cf_flush (s : PState) :
    ((Pool.flush s).1).createFailures = s.createFailures := by
  simp only [Pool.flush]
  split_ifs <;> rfl

theorem cf_processClose (s : PState) (w : Bool) :
    ((Pool.processClose s w).1).createFailures = s.createFailures := by
  simp only [Pool.processClose]
  repeat' split
  all_goals simp_all [cf_flush]

theorem cf_close (s : PState) (w : Bool) :
    ((Pool.close s w).2.1).createFailures = s.createFailures := by
  simp only [Pool.close]
  repeat' split
  all_goals simp_all [cf_processClose, Pool.clearSweep]

theorem cf_isExpired (s : PState) (e : ElemData) (now : Int) :
    ((Pool.isExpired s e now).2).createFailures = s.createFailures := by
  simp only [Pool.isExpired]
  repeat' split
  all_goals rfl

theorem cf_pushSweep (s : PState) (t now : Int) :
    (Pool.pushSweep s t now).createFailures = s.createFailures := by
  simp only [Pool.pushSweep]
  repeat' split
  all_goals rfl

theorem cf_available (s : PState) (item : Nat) (e : ElemData) (now : Int) :
    ((Pool.available s item e now).1).createFailures = s.createFailures := by
  have hw := cf_isExpired s e now
  simp only [Pool.available]
  repeat' split
  all_goals simp_all [Pool.destroyStart, cf_pushSweep]

theorem closing_flush (s : PState) : ((Pool.flush s).1).closing = s.closing := by
  simp only [Pool.flush]
  split_ifs <;> rfl

theorem closing_processClose (s : PState) (w : Bool) :
    ((Pool.processClose s w).1).closing = s.closing := by
  simp only [Pool.processClose]
  repeat' split
  all_goals simp_all [closing_flush]

theorem closing_close (s : PState) (w : Bool) (h : s.closed = false) :
    ((Pool.close s w).2.1).closing = true := by
  simp only [Pool.close, h]
  repeat' split
  all_goals simp_all [closing_processClose, Pool.clearSweep]

theorem active_flush (s : PState) : ((Pool.flush s).1).active = s.active := by
  simp only [Pool.flush]
  split_ifs <;> rfl

theorem minNonneg_none_iff (l : List Int) :
    minNonneg l = none ↔ ∀ b ∈ l, b < 0 := by
  induction l with
  | nil => simp [minNonneg]
  | cons x xs ih =>
    by_cases hx : (0 : Int) ≤ x
    · simp only [minNonneg, List.filter_cons, decide_eq_true_eq, if_pos hx,
        List.foldr_cons]
      constructor
      · intro h
        cases hfold : (xs.filter (fun x => decide (0 ≤ x))).foldr
            (fun x acc =>
              match acc with
              | none => some x
              | some y => some (min x y))
            none <;>
          rw [hfold] at h <;> simp at h
      · intro h
        exact absurd (h x (List.mem_cons_self x xs)) (by omega)
    · simp only [minNonneg, List.filter_cons, decide_eq_true_eq, if_neg hx] at *
      rw [ih]
      constructor
      · intro h b hb
        rw [List.mem_cons] at hb
        rcases hb with hb | hb
        · omega
        · exact h b hb
      · intro h b hb
        exact h b (List.mem_cons_of_mem x hb)

/-! Claim theorems. -/

/-- Claim C1: the specification states that get on a pool with a non-empty
idle stack pops the top (most recently pushed) element, clears its idledAt
timestamp, adds it to the active set, and resolves immediately with no
expiry check.  The code pops the top element, clears idledAt, resolves
immediately without any expiry check or counter increment, but it never
pushes the popped element onto the active list: the element ends up in
neither container, and a subsequent release of the very item the pool just
handed out destroys it as an unrecognized foreign item. -/
theorem pool_get_idle_pop_leaves_active_unchanged :
    (Pool.get sIdleExpired none 9).1 = Pool.GetOutcome.resolvedNow 5 ∧
    (Pool.get sIdleExpired none 9).2.1.active = [] ∧
    (Pool.get sIdleExpired none 9).2.1.pool = [] ∧
    lookupRef (Pool.get sIdleExpired none 9).2.1.refs 5 =
      some { created := 0, idled := none } ∧
    (Pool.get sIdleExpired none 9).2.1.maxLifetimeClosed = 0 ∧
    (Pool.get sIdleExpired none 9).2.2 = [] ∧
    Pool.release (Pool.get sIdleExpired none 9).2.1 5 Pool.ResetBehavior.absent 11 =
      ({ (Pool.get sIdleExpired none 9).2.1 with destroying := 1 },
        [Ev.destroyBegin 5]) := by
  decide

/-- Claim C2: the specification states that every alive element is in
exactly one of the idle stack or the active set, with idledAt = none iff
the element is active, preserved by every pool operation.  Along the
reachable trace get, createSuccess, release, get, item 7 is never destroyed
and satisfies the invariant until the final get pops it from the idle
stack: the resulting state holds item 7 in neither container while its
idledAt is none and it is not active, violating both parts of the
invariant. -/
theorem pool_exclusive_membership_invariant_violated :
    inExactlyOne sAfterCreate 7 ∧
    lookupRef sAfterCreate.refs 7 = some { created := 1, idled := none } ∧
    7 ∈ sAfterCreate.active ∧
    inExactlyOne sAfterRelease 7 ∧
    lookupRef sAfterRelease.refs 7 = some { created := 1, idled := some 2 } ∧
    7 ∉ sAfterRelease.active ∧
    (Pool.get sAfterRelease none 2).1 = Pool.GetOutcome.resolvedNow 7 ∧
    ¬ inExactlyOne (Pool.get sAfterRelease none 2).2.1 7 ∧
    lookupRef (Pool.get sAfterRelease none 2).2.1.refs 7 =
      some { created := 1, idled := none } ∧
    7 ∉ (Pool.get sAfterRelease none 2).2.1.active ∧
    ((Pool.get pool0 none 1).2.2 ++ (Pool.createSuccess sAfterGet1 7 1).2 ++
      (Pool.release sAfterCreate 7 Pool.ResetBehavior.absent 2).2 ++
      (Pool.get sAfterRelease none 2).2.2).all
        (fun e => decide (e ≠ Ev.destroyBegin 7)) = true := by
  decide

/-- Claim C3, counterexample: on a reachable pool whose active set is the
single in-use item 7, close with a callback fn resolves waitClose in the
same synchronous region — processClose pops every active element while
invoking fn, so flush sees an empty active set — even though item 7 was
never released and no destroy of it was started. -/
theorem pool_close_with_fn_resolves_before_release :
    sAfterCreate.active = [7] ∧
    sAfterCreate.closing = false ∧ sAfterCreate.closed = false ∧
    (Pool.close sAfterCreate true).2.2 = [Ev.fnInvoked 7, Ev.waitCloseResolved] ∧
    (Pool.close sAfterCreate true).2.1.closed = true ∧
    (Pool.close sAfterCreate true).2.1.destroying = 0 := by
  decide

/-- Claim C3, amended: flush resolves waitClose exactly when closing holds,
destroying = 0, creating = 0, the active list is empty and waitClose is
pending, and it marks the pool closed exactly when the pool is already
closed or those quiescence conditions hold; when fn is provided, close
itself empties the active list, so the conditions do not imply that in-use
items were released. -/
theorem pool_flush_closes_iff_quiescent (s : PState) :
    ((Pool.flush s).2 = [Ev.waitCloseResolved] ↔
      (s.closing = true ∧ s.destroying = 0 ∧ s.creating = 0 ∧ s.active = [] ∧
        s.hasWaitClose = true)) ∧
    (((Pool.flush s).1).closed = true ↔
      (s.closed = true ∨
        (s.closing = true ∧ s.destroying = 0 ∧ s.creating = 0 ∧ s.active = []))) ∧
    (s.closed = false → s.closing = false →
      ((Pool.close s true).2.1).active = []) := by
  refine ⟨?_, ?_, ?_⟩
  · simp only [Pool.flush]
    split_ifs <;> simp_all [List.length_pos] <;> omega
  · simp only [Pool.flush]
    split_ifs <;> simp_all [List.length_pos] <;> omega
  · intro h1 h2
    simp only [Pool.close, Pool.clearSweep, h1, h2]
    simp only [Pool.processClose]
    repeat' split
    all_goals simp_all [active_flush]

/-- Claim C3, witness: the flush characterization applied to a closing pool
with nothing in flight, and the close branch applied to the reachable state
with one active item. -/
theorem pool_flush_closes_iff_quiescent_witness :
    (Pool.flush sFlushReady).2 = [Ev.waitCloseResolved] ∧
    ((Pool.close sAfterCreate true).2.1).active = [] := by
  refine ⟨((pool_flush_closes_iff_quiescent sFlushReady).1).mpr (by decide), ?_⟩
  exact (pool_flush_closes_iff_quiescent sAfterCreate).2.2 (by decide) (by decide)

/-- Claim C4, counterexample: setOptions with maxLifetime = 0 on a fresh
pool throws synchronously, but the disallowed value 0 is already stored in
the configuration when the throw propagates: the backing field is assigned
before the change event runs the validating handler, and stats subsequently
reports maxLifetime = 0 instead of the prior -1. -/
theorem pool_setOptions_zero_stores_disallowed_value :
    pool0.maxLifetime = -1 ∧
    (Pool.setOptions pool0 { maxLifetime := some 0 } 0).2.2 =
      some (PErr.optZero OptField.fMaxLifetime) ∧
    (Pool.setOptions pool0 { maxLifetime := some 0 } 0).1.maxLifetime = 0 ∧
    (Pool.stats (Pool.setOptions pool0 { maxLifetime := some 0 } 0).1).maxLifetime
      = 0 := by
  decide

/-- Claim C4, amended: on a pool that is neither closing nor closed,
setOptions with a disallowed zero for maxLifetime, maxIdleTime or
maxOpenCount (different from the stored value) throws synchronously before
any sweep, trim or grow side effect, but the offending field has already
been updated to 0; no other pool state changes. -/
theorem pool_setOptions_zero_throws_after_mutation (s : PState) (now : Int)
    (h1 : s.closed = false) (h2 : s.closing = false) :
    (s.maxLifetime ≠ 0 →
      Pool.setOptions s { maxLifetime := some 0 } now =
        ({ s with maxLifetime := 0 }, [],
          some (PErr.optZero OptField.fMaxLifetime))) ∧
    (s.maxIdleTime ≠ 0 →
      Pool.setOptions s { maxIdleTime := some 0 } now =
        ({ s with maxIdleTime := 0 }, [],
          some (PErr.optZero OptField.fMaxIdleTime))) ∧
    (s.maxOpenCount ≠ 0 →
      Pool.setOptions s { maxOpenCount := some 0 } now =
        ({ s with maxOpenCount := 0 }, [],
          some (PErr.optZero OptField.fMaxOpenCount))) := by
  refine ⟨?_, ?_, ?_⟩
  · intro hv
    simp only [Pool.setOptions, h1, h2, Pool.applyStep, Pool.setMaxLifetime,
      Pool.onMaxLifetime, Bool.false_eq_true, if_false]
    rw [if_neg (by omega)]
    simp
  · intro hv
    simp only [Pool.setOptions, h1, h2, Pool.applyStep, Pool.setMaxIdleTime,
      Pool.onMaxIdleTime, Bool.false_eq_true, if_false]
    rw [if_neg (by omega)]
    simp
  · intro hv
    simp only [Pool.setOptions, h1, h2, Pool.applyStep, Pool.setMaxOpenCount,
      Pool.onMaxOpenCount, Bool.false_eq_true, if_false]
    rw [if_neg (by omega)]
    simp

/-- Claim C4, witness: the amended statement applied to the fresh pool. -/
theorem pool_setOptions_zero_throws_after_mutation_witness :
    Pool.setOptions pool0 { maxLifetime := some 0 } 0 =
      ({ pool0 with maxLifetime := 0 }, [],
        some (PErr.optZero OptField.fMaxLifetime)) :=
  (pool_setOptions_zero_throws_after_mutation pool0 0 rfl rfl).1 (by decide)

/-- Claim C5: every synchronous create failure emits error(create) as its
first effect and increments createFailures; every successful create resets
createFailures to 0; once the counter would reach MAX_CREATE_FAILURES = 10
the failing create initiates close; and in the ten-strike scenario (one
queued waiter, an always-failing factory) ten grow rounds leave the pool
closed, reject the waiter with the Closing error, emit exactly ten create
error events, and resolve waitClose. -/
theorem pool_create_failure_ten_strike (s : PState) (item : Nat) (now : Int)
    (h : s.closed = false) :
    ((Pool.createFailSync s).1).createFailures = s.createFailures + 1 ∧
    (Pool.createFailSync s).2.head? = some (Ev.errEvent FAction.create) ∧
    ((Pool.createSuccess s item now).1).createFailures = 0 ∧
    (s.createFailures ≥ MAX_CREATE_FAILURES - 1 →
      ((Pool.createFailSync s).1).closing = true) ∧
    (Pool.strikeRounds 10 sWait).1.closed = true ∧
    (Pool.strikeRounds 10 sWait).1.closing = true ∧
    (Pool.strikeRounds 10 sWait).2.contains (Ev.rejectedW 1 PErr.closingE) = true ∧
    (Pool.strikeRounds 10 sWait).2.count (Ev.errEvent FAction.create) = 10 ∧
    (Pool.strikeRounds 10 sWait).2.contains Ev.waitCloseResolved = true := by
  refine ⟨?_, ?_, ?_, ?_, by decide, by decide, by decide, by decide, by decide⟩
  · simp only [Pool.createFailSync]
    repeat' split
    all_goals simp_all [cf_close]
  · simp only [Pool.createFailSync]
    repeat' split
    all_goals simp
  · simp only [Pool.createSuccess]
    repeat' split
    all_goals simp_all [cf_available, Pool.destroyStart]
  · intro hge
    simp only [Pool.createFailSync]
    rw [if_pos (by unfold MAX_CREATE_FAILURES at *; omega)]
    simp only []
    exact closing_close _ false (by simpa using h)

/-- Claim C5, witness: the failure and success accounting applied to the
fresh pool. -/
theorem pool_create_failure_ten_strike_witness :
    ((Pool.createFailSync pool0).1).createFailures = pool0.createFailures + 1 ∧
    ((Pool.createSuccess pool0 7 0).1).createFailures = 0 :=
  ⟨(pool_create_failure_ten_strike pool0 7 0 rfl).1,
    (pool_create_failure_ten_strike pool0 7 0 rfl).2.2.1⟩

/-- Claim C6: the specification states that waitDuration accumulates the
wait time of completed waits.  The code never writes the field: it is 0 in
the snapshot even directly after a queued request (enqueued while the state
had waitCount = 1) is fulfilled, and get, release, createSuccess,
createFailSync, close and destroyComplete all leave waitDuration exactly as
they found it. -/
theorem pool_wait_duration_never_accumulates :
    (Pool.stats sAfterGet1).waitCount = 1 ∧
    (Pool.createSuccess sAfterGet1 7 5).2 = [Ev.resolvedW 1 7] ∧
    (Pool.stats (Pool.createSuccess sAfterGet1 7 5).1).waitDuration = 0 ∧
    (∀ s c w, ((Pool.get s c w).2.1).waitDuration = s.waitDuration) ∧
    (∀ s i rb n, ((Pool.release s i rb n).1).waitDuration = s.waitDuration) ∧
    (∀ s i n, ((Pool.createSuccess s i n).1).waitDuration = s.waitDuration) ∧
    (∀ s, ((Pool.createFailSync s).1).waitDuration = s.waitDuration) ∧
    (∀ s w, ((Pool.close s w).2.1).waitDuration = s.waitDuration) ∧
    (∀ s b, ((Pool.destroyComplete s b).1).waitDuration = s.waitDuration) :=
  ⟨by decide, by decide, by decide, wd_get, wd_release, wd_createSuccess,
    wd_createFailSync, wd_close, wd_destroyComplete⟩

/-- Claim C7: promise called with a context whose canceler is already
cancelled returns an immediately rejected promise; the reason is the
errCanceled factory result when one is supplied and returns a value,
otherwise a generic already-canceled error, in both cases carrying the
cancellation tag so that isCanceled returns true. -/
theorem promise_already_canceled_rejects_tagged (clr : CancelerM)
    (g : Unit → Option JsErr) (h : clr.canceled = true) :
    (promiseInit (some { canceler := some clr }) (some g) =
      PromiseInit.rejectedNow (cancelErr "Context was already canceled" (some g))) ∧
    (promiseInit (some { canceler := some clr }) none =
      PromiseInit.rejectedNow (cancelErr "Context was already canceled" none)) ∧
    isCanceled (some (cancelErr "Context was already canceled" (some g))) = true ∧
    isCanceled (some (cancelErr "Context was already canceled" none)) = true ∧
    (∀ e : JsErr, g () = some e →
      cancelErr "Context was already canceled" (some g) =
        { e with canceledTag := true }) ∧
    (g () = none →
      cancelErr "Context was already canceled" (some g) =
        { errId := 0, msg := "Context was already canceled",
          canceledTag := true }) := by
  refine ⟨?_, ?_, ?_, ?_, ?_, ?_⟩
  · simp [promiseInit, h]
  · simp [promiseInit, h]
  · cases hg : g () <;> simp [cancelErr, isCanceled, hg]
  · simp [cancelErr, isCanceled]
  · intro e he
    simp [cancelErr, he]
  · intro he
    simp [cancelErr, he]

/-- Claim C7, witness: a cancelled token with a supplied error factory
yields that factory error, tagged. -/
theorem promise_already_canceled_rejects_tagged_witness :
    promiseInit (some { canceler := some { canceled := true, storedErr := none } })
      (some (fun _ => some { errId := 7, msg := "custom", canceledTag := false })) =
      PromiseInit.rejectedNow { errId := 7, msg := "custom", canceledTag := true } := by
  have h := promise_already_canceled_rejects_tagged
    { canceled := true, storedErr := none }
    (fun _ => some { errId := 7, msg := "custom", canceledTag := false }) rfl
  rw [h.1]
  decide

/-- Claim C8, counterexample: with maxLifetime = 10 switched on (not off)
and the idle cap off, an element created at time 0 evaluated at time 20 has
ttl none, so ttl is none even though not both caps are off: a cap that is
on but already overrun also yields none. -/
theorem pool_ttl_none_with_lifetime_cap_on :
    Pool.ttl { pool0 with maxLifetime := 10 } { created := 0, idled := none } 20 =
      none ∧
    ({ pool0 with maxLifetime := 10 } : PState).maxLifetime > 0 := by
  decide

/-- Claim C8, amended: ttl equals the smallest non-negative remaining
budget among the participating budgets (the lifetime budget when its cap is
positive; the idle budget when its cap is positive and idledAt is set), and
it is none exactly when every participating budget is negative — in
particular both when both caps are off and when the element has overrun
every cap that is on. -/
theorem pool_ttl_eq_smallest_nonneg_budget (s : PState) (e : ElemData) (now : Int) :
    Pool.ttl s e now = minNonneg (ttlSpecBudgets s e now) ∧
    (Pool.ttl s e now = none ↔ ∀ b ∈ ttlSpecBudgets s e now, b < 0) := by
  have heq : Pool.ttl s e now = minNonneg (ttlSpecBudgets s e now) := by
    rcases hi : e.idled with _ | idt
    · by_cases hl : s.maxLifetime > 0
      all_goals
        simp only [Pool.ttl, ttlSpecBudgets, minNonneg, hi, hl, sinceMs,
          List.filter_cons, List.filter_nil, decide_eq_true_eq, List.append_nil,
          List.nil_append, List.foldr_nil, List.foldr_cons, if_true, if_false]
      all_goals split_ifs <;> simp_all <;> omega
    · by_cases hl : s.maxLifetime > 0 <;> by_cases hm : s.maxIdleTime > 0
      all_goals
        simp only [Pool.ttl, ttlSpecBudgets, minNonneg, hi, hl, hm, sinceMs,
          List.filter_cons, List.filter_nil, decide_eq_true_eq, List.append_nil,
          List.nil_append, List.cons_append, List.foldr_nil, List.foldr_cons,
          if_true, if_false]
      all_goals split_ifs <;> simp_all <;> omega
  refine ⟨heq, ?_⟩
  rw [heq]
  exact minNonneg_none_iff _

/-- Claim C8, witness: the equation applied to an element seven
milliseconds short of its lifetime cap. -/
theorem pool_ttl_eq_smallest_nonneg_budget_witness :
    Pool.ttl { pool0 with maxLifetime := 10 } { created := 0, idled := none } 3 =
      minNonneg (ttlSpecBudgets { pool0 with maxLifetime := 10 }
        { created := 0, idled := none } 3) ∧
    Pool.ttl { pool0 with maxLifetime := 10 } { created := 0, idled := none } 3 =
      some 7 :=
  ⟨(pool_ttl_eq_smallest_nonneg_budget { pool0 with maxLifetime := 10 }
      { created := 0, idled := none } 3).1, by decide⟩

/-- Claim C9: limit applied to a context bound returns the input promise
itself — no timeout or cancellation bound is installed and the result is
exactly the settlement of the input — whenever the context is nullish or
carries no canceler. -/
theorem limit_nullish_context_returns_input (p : OutcomeM) (now : Int) :
    limit p (LimiterM.inCtx none) now = LimitRes.passthrough p ∧
    (∀ c : CtxM, c.canceler = none →
      limit p (LimiterM.inCtx (some c)) now = LimitRes.passthrough p) := by
  constructor
  · rfl
  · intro c hc
    simp [limit, limitContext, hc]

/-- Claim C9, witness: the passthrough applied to a concrete resolved
promise and a concrete canceler-free context. -/
theorem limit_nullish_context_returns_input_witness :
    limit (OutcomeM.value 5) (LimiterM.inCtx (some { canceler := none })) 0 =
      LimitRes.passthrough (OutcomeM.value 5) :=
  (limit_nullish_context_returns_input (OutcomeM.value 5) 0).2
    { canceler := none } rfl

/-- Claim C10, counterexample: on a closed pool, repeating setOptions with
the very value that is already stored still throws: setOptions always runs
the status check first, which throws the Closed error before any field
comparison, so the same-value call is not free of throws on every pool. -/
theorem pool_setOptions_same_value_throws_when_closed :
    sClosedPool.closed = true ∧
    sClosedPool.maxLifetime = -1 ∧
    Pool.setOptions sClosedPool { maxLifetime := some (-1) } 0 =
      (sClosedPool, [], some PErr.closedE) := by
  decide

/-- Claim C10, amended: every option setter given the currently stored
value returns before emitting — no validation, no sweep or trim, no event,
no state change — and on a pool that is neither closing nor closed a
setOptions call repeating all stored values (parallelCreate included)
changes nothing, emits nothing and throws nothing. -/
theorem pool_setOptions_same_values_noop (s : PState) (now : Int)
    (h1 : s.closed = false) (h2 : s.closing = false) :
    Pool.setMaxLifetime s s.maxLifetime now = (s, [], none) ∧
    Pool.setMaxIdleTime s s.maxIdleTime now = (s, [], none) ∧
    Pool.setMaxOpenCount s s.maxOpenCount now = (s, [], none) ∧
    Pool.setMaxIdleCount s s.maxIdleCount = (s, [], none) ∧
    Pool.setOptions s
      { maxLifetime := some s.maxLifetime, maxIdleTime := some s.maxIdleTime,
        maxOpenCount := some s.maxOpenCount, maxIdleCount := some s.maxIdleCount,
        parallelCreate := some s.parallelCreate } now = (s, [], none) := by
  refine ⟨?_, ?_, ?_, ?_, ?_⟩
  · simp [Pool.setMaxLifetime]
  · simp [Pool.setMaxIdleTime]
  · simp [Pool.setMaxOpenCount]
  · simp [Pool.setMaxIdleCount]
  · unfold Pool.setOptions
    rw [if_neg (by simp [h1]), if_neg (by simp [h2])]
    simp only [Pool.applyStep, Pool.setMaxLifetime, Pool.setMaxIdleTime,
      Pool.setMaxOpenCount, Pool.setMaxIdleCount, eq_self_iff_true, if_true,
      ite_true, List.append_nil, List.nil_append]

/-- Claim C10, witness: the no-op applied to the fresh pool with its stored
values. -/
theorem pool_setOptions_same_values_noop_witness :
    Pool.setOptions pool0
      { maxLifetime := some pool0.maxLifetime,
        maxIdleTime := some pool0.maxIdleTime,
        maxOpenCount := some pool0.maxOpenCount,
        maxIdleCount := some pool0.maxIdleCount,
        parallelCreate := some pool0.parallelCreate } 0 = (pool0, [], none) :=
  (pool_setOptions_same_values_noop pool0 0 rfl rfl).2.2.2.2
